import Mathlib

/-!
# Chronicle scrobbler — verification of the progress tracker and monitor

Shallow embedding of `src/lib/progress_tracker.py` (class `ProgressTracker`,
its `PlaybackState` dataclass) and the relevant parts of
`src/lib/monitor.py` (`ChronicleMonitor._send_update`, `onPlayBackEnded`).

Modelling conventions:
* Python floats (timestamps, percentages, settings) are rationals `ℚ`.
* `ADDON.getSetting('poll_interval')` and `'watched_threshold'` are read
  fresh on every call in the source, so they are explicit parameters
  `poll` and `thr` of each operation.
* `time.monotonic()` is the explicit parameter `now`; the monitor samples
  it once before taking the lock, so `sendUpdate` receives it as input.
* The sink call `self._client.scrobble(payload)` is modelled by its boolean
  outcome `sinkOk`, an input of `sendUpdate`.
* In `_send_update`, the local variable `payload` is assigned only inside
  the `if force or should_scrobble` branch, yet
  `ok = self._client.scrobble(payload)` executes unconditionally after the
  `with self._lock` block; when the branch was not taken the name `payload`
  is unbound and Python raises `UnboundLocalError` before the sink is
  invoked.  The embedding records this with the outcome
  `SendOutcome.unboundLocalError`.
-/

/-- `@dataclass PlaybackState` of `progress_tracker.py`: mutable state kept
for one playback session. -/
structure PlaybackState where
  media_type      : String := ""
  title           : String := ""
  season          : Int := 0
  episode         : Int := 0
  show_title      : String := ""
  total_time      : ℚ := 0
  last_percentage : ℚ := 0
  watched_sent    : Bool := false
  deriving Repr, DecidableEq

/-- The fields of a `MediaInfo` snapshot that the tracker reads:
`percentage` and `is_paused` (plus the constant fields consumed by
`start_session`). -/
structure MediaSnapshot where
  media_type : String := ""
  title      : String := ""
  season     : Int := 0
  episode    : Int := 0
  show_title : String := ""
  total_time : ℚ := 0
  percentage : ℚ := 0
  is_paused  : Bool := false
  deriving Repr, DecidableEq

/-- `ProgressTracker.__init__`-declared state: the optional session
(`self._state`) and the monotonic timestamp of the last scrobble
(`self._last_scrobble`). -/
structure ProgressTracker where
  state         : Option PlaybackState
  last_scrobble : ℚ
  deriving Repr, DecidableEq

/-- `MIN_INTERVAL = 15.0` — hard floor between scrobbles. -/
def MIN_INTERVAL : ℚ := 15

/-- `ProgressTracker.has_session`. -/
def ProgressTracker.has_session (t : ProgressTracker) : Bool :=
  t.state.isSome

/-- `ProgressTracker.start_session(media_info)`: installs a fresh
`PlaybackState` built from the snapshot's constant fields and resets
`_last_scrobble` to `0.0` ("force a scrobble on the first update"). -/
def ProgressTracker.start_session (_t : ProgressTracker) (mi : MediaSnapshot) :
    ProgressTracker :=
  { state := some
      { media_type := mi.media_type
        title := mi.title
        season := mi.season
        episode := mi.episode
        show_title := mi.show_title
        total_time := mi.total_time }
    last_scrobble := 0 }

/-- `ProgressTracker.end_session()`: discards the session. -/
def ProgressTracker.end_session (t : ProgressTracker) : ProgressTracker :=
  { t with state := none }

/-- `ProgressTracker.should_scrobble(media_info, now)` with the two settings
`poll_interval` and `watched_threshold` passed explicitly (the source
re-reads them on every call). -/
def ProgressTracker.should_scrobble (t : ProgressTracker) (media : MediaSnapshot)
    (now poll thr : ℚ) : Bool :=
  match t.state with
  | none => false
  | some st =>
    if media.is_paused then false
    else if now - t.last_scrobble < MIN_INTERVAL then false
    else if poll ≤ now - t.last_scrobble then true
    else if (5 : ℚ) ≤ |media.percentage - st.last_percentage| then true
    else if st.watched_sent = false ∧ thr ≤ media.percentage then true
    else false

/-- `ProgressTracker.record_scrobble(media_info, now)`. -/
def ProgressTracker.record_scrobble (t : ProgressTracker) (media : MediaSnapshot)
    (now thr : ℚ) : ProgressTracker :=
  match t.state with
  | none => t
  | some st =>
    { state := some
        { st with
          watched_sent := if thr ≤ media.percentage then true else st.watched_sent
          last_percentage := media.percentage }
      last_scrobble := now }

/-- State-passing rendering of `should_scrobble`: the Python method runs on
the mutable `self`; every `return` statement of the source leaves `self`
as it found it, which this version makes explicit by returning the tracker
alongside the boolean. -/
def ProgressTracker.should_scrobbleS (t : ProgressTracker) (media : MediaSnapshot)
    (now poll thr : ℚ) : Bool × ProgressTracker :=
  match t.state with
  | none => (false, t)
  | some st =>
    if media.is_paused then (false, t)
    else if now - t.last_scrobble < MIN_INTERVAL then (false, t)
    else if poll ≤ now - t.last_scrobble then (true, t)
    else if (5 : ℚ) ≤ |media.percentage - st.last_percentage| then (true, t)
    else if st.watched_sent = false ∧ thr ≤ media.percentage then (true, t)
    else (false, t)

/-- How one call to `ChronicleMonitor._send_update` terminates: a plain
`return`, or the `UnboundLocalError` raised at
`ok = self._client.scrobble(payload)` when the due-branch that binds
`payload` was not taken. -/
inductive SendOutcome where
  | normal
  | unboundLocalError
  deriving Repr, DecidableEq

/-- Observable result of one `_send_update` call: the tracker afterwards,
whether the sink (`self._client.scrobble`) was invoked, whether a commit
(`record_scrobble`) happened, and how the call terminated. -/
structure SendResult where
  tracker     : ProgressTracker
  sinkInvoked : Bool
  committed   : Bool
  outcome     : SendOutcome
  deriving Repr, DecidableEq

/-- `ChronicleMonitor._send_update(force)`, sequential semantics.
`mediaOpt` is what `MediaInfo.get_current()` returned, `now` the
`time.monotonic()` sample taken before the lock, and `sinkOk` the boolean
the sink call would return.  Mirrors the source line by line: early return
on no media; early return (inside the lock) on no session; `payload` is
bound only under `if force or should_scrobble`; the sink call runs
unconditionally after the lock, raising `UnboundLocalError` when `payload`
is unbound; on sink success `record_scrobble` runs under the lock. -/
def sendUpdate (t : ProgressTracker) (mediaOpt : Option MediaSnapshot)
    (now poll thr : ℚ) (force : Bool) (sinkOk : Bool) : SendResult :=
  match mediaOpt with
  | none => ⟨t, false, false, .normal⟩
  | some media =>
    if t.has_session = false then ⟨t, false, false, .normal⟩
    else if force || t.should_scrobble media now poll thr then
      if sinkOk then ⟨t.record_scrobble media now thr, true, true, .normal⟩
      else ⟨t, true, false, .normal⟩
    else ⟨t, false, false, .unboundLocalError⟩

/-- `ChronicleMonitor.onPlayBackEnded`: a forced `_send_update` followed by
`_on_stop()`, i.e. `end_session`. -/
def onPlayBackEnded (t : ProgressTracker) (mediaOpt : Option MediaSnapshot)
    (now poll thr : ℚ) (sinkOk : Bool) : SendResult × ProgressTracker :=
  let r := sendUpdate t mediaOpt now poll thr true sinkOk
  (r, r.tracker.end_session)

/-- One Orchestrator-driven attempt in a sequential trace: the snapshot the
monitor fetched, the time it sampled, whether the attempt was forced, and
whether the sink reported success. -/
structure Attempt where
  media  : MediaSnapshot
  now    : ℚ
  force  : Bool
  sinkOk : Bool
  deriving Repr, DecidableEq

/-- Times of the successful commits (`record_scrobble` calls) along a
sequential trace of `_send_update` attempts. -/
def commitTimes (poll thr : ℚ) : ProgressTracker → List Attempt → List ℚ
  | _, [] => []
  | t, a :: as =>
    let r := sendUpdate t (some a.media) a.now poll thr a.force a.sinkOk
    if r.committed then a.now :: commitTimes poll thr r.tracker as
    else commitTimes poll thr r.tracker as

/-! ## Two concurrent `_send_update` calls

`_send_update` holds `self._lock` for the session/due check and again for
`record_scrobble`, but not across the sink call in between.  We model one
call as three atomic steps at exactly that lock granularity. -/

/-- Program counter of one in-flight `_send_update` call. -/
inductive Phase where
  | checkDue | sink | record | done
  deriving Repr, DecidableEq

/-- Mutable local state of one in-flight `_send_update` call: its program
counter and whether the local variable `payload` has been bound. -/
structure ThreadSt where
  phase      : Phase
  hasPayload : Bool
  deriving Repr, DecidableEq

/-- One atomic step of an in-flight `_send_update` call against the shared
tracker.  Returns the new tracker, the new thread state, and 1 when the
step committed a scrobble. -/
def threadStep (poll thr : ℚ) (inp : Attempt) (tr : ProgressTracker)
    (th : ThreadSt) : ProgressTracker × ThreadSt × ℕ :=
  match th.phase with
  | .checkDue =>
    if tr.has_session = false then (tr, { th with phase := .done }, 0)
    else if inp.force || tr.should_scrobble inp.media inp.now poll thr then
      (tr, { phase := .sink, hasPayload := true }, 0)
    else
      (tr, { phase := .sink, hasPayload := false }, 0)
  | .sink =>
    if th.hasPayload then
      if inp.sinkOk then (tr, { th with phase := .record }, 0)
      else (tr, { th with phase := .done }, 0)
    else (tr, { th with phase := .done }, 0)
  | .record =>
    (tr.record_scrobble inp.media inp.now thr, { th with phase := .done }, 1)
  | .done => (tr, th, 0)

/-- Shared state of the two-thread system: the tracker, both threads'
local state, and the number of committed sink invocations so far. -/
structure SysState where
  tracker : ProgressTracker
  thread0 : ThreadSt
  thread1 : ThreadSt
  commits : ℕ
  deriving Repr, DecidableEq

/-- Scheduler step: run one atomic step of thread `i`. -/
def sysStep (poll thr : ℚ) (inp0 inp1 : Attempt) (s : SysState) (i : Bool) :
    SysState :=
  if i then
    let (tr, th, c) := threadStep poll thr inp1 s.tracker s.thread1
    { s with tracker := tr, thread1 := th, commits := s.commits + c }
  else
    let (tr, th, c) := threadStep poll thr inp0 s.tracker s.thread0
    { s with tracker := tr, thread0 := th, commits := s.commits + c }

/-- Run a schedule (a list of thread choices) from a system state. -/
def sysRun (poll thr : ℚ) (inp0 inp1 : Attempt) (s : SysState)
    (sched : List Bool) : SysState :=
  sched.foldl (sysStep poll thr inp0 inp1) s

/-! ## Helper lemmas -/

lemma has_session_some {t : ProgressTracker} (h : t.has_session = true) :
    ∃ st, t.state = some st := by
  simpa [ProgressTracker.has_session, Option.isSome_iff_exists] using h

lemma should_scrobble_floor {t : ProgressTracker} {media : MediaSnapshot}
    {now poll thr : ℚ} (h : t.should_scrobble media now poll thr = true) :
    t.last_scrobble + MIN_INTERVAL ≤ now := by
  obtain ⟨s0, last⟩ := t
  cases s0 with
  | none => simp [ProgressTracker.should_scrobble] at h
  | some st =>
    by_cases hp : media.is_paused
    · simp [ProgressTracker.should_scrobble, hp] at h
    · by_cases hfl : now - last < MIN_INTERVAL
      · simp [ProgressTracker.should_scrobble, hp, hfl] at h
      · show last + MIN_INTERVAL ≤ now
        have := not_lt.mp hfl
        linarith

lemma record_scrobble_last {t : ProgressTracker} {st : PlaybackState}
    {media : MediaSnapshot} {now thr : ℚ} (hs : t.state = some st) :
    (t.record_scrobble media now thr).last_scrobble = now := by
  simp [ProgressTracker.record_scrobble, hs]

lemma should_scrobbleS_eq (t : ProgressTracker) (media : MediaSnapshot)
    (now poll thr : ℚ) :
    t.should_scrobbleS media now poll thr =
      (t.should_scrobble media now poll thr, t) := by
  obtain ⟨s0, last⟩ := t
  cases s0 with
  | none => rfl
  | some st =>
    simp only [ProgressTracker.should_scrobbleS, ProgressTracker.should_scrobble]
    split_ifs <;> rfl

lemma sendUpdate_frame {t : ProgressTracker} {mediaOpt : Option MediaSnapshot}
    {now poll thr : ℚ} {force ok : Bool}
    (h : (sendUpdate t mediaOpt now poll thr force ok).committed = false) :
    (sendUpdate t mediaOpt now poll thr force ok).tracker = t := by
  cases mediaOpt with
  | none => rfl
  | some media =>
    by_cases hs : t.has_session = false
    · simp [sendUpdate, hs]
    · by_cases hd : (force || t.should_scrobble media now poll thr) = true
      · cases ok with
        | true => simp [sendUpdate, hs, hd] at h
        | false => simp [sendUpdate, hs, hd]
      · simp [sendUpdate, hs, hd]

lemma sendUpdate_committed {t : ProgressTracker} {media : MediaSnapshot}
    {now poll thr : ℚ} {force ok : Bool}
    (h : (sendUpdate t (some media) now poll thr force ok).committed = true) :
    ok = true ∧ t.has_session = true ∧
    (force || t.should_scrobble media now poll thr) = true ∧
    (sendUpdate t (some media) now poll thr force ok).tracker
      = t.record_scrobble media now thr := by
  by_cases hs : t.has_session = false
  · simp [sendUpdate, hs] at h
  · by_cases hd : (force || t.should_scrobble media now poll thr) = true
    · cases ok with
      | true =>
        refine ⟨rfl, ?_, hd, ?_⟩
        · cases hv : t.has_session
          · exact absurd hv hs
          · rfl
        · simp [sendUpdate, hs, hd]
      | false => simp [sendUpdate, hs, hd] at h
    · simp [sendUpdate, hs, hd] at h

/-! ## Claims -/

/-- Claim C1 (code bug): a non-forced `_send_update` with a snapshot, an
active session, and a false due-evaluation does not return normally after
releasing the lock: the source's `ok = self._client.scrobble(payload)`
runs unconditionally after the `with self._lock:` block, and `payload` was
never bound, so the call raises `UnboundLocalError`.  The Sink is not
invoked and the tracker state is unchanged, but the procedure terminates
abnormally, contradicting spec step 5 ("release the lock and return"). -/
theorem C1_not_due_raises (t : ProgressTracker) (st : PlaybackState)
    (media : MediaSnapshot) (now poll thr : ℚ) (ok : Bool)
    (hs : t.state = some st)
    (hdue : t.should_scrobble media now poll thr = false) :
    sendUpdate t (some media) now poll thr false ok =
      ⟨t, false, false, .unboundLocalError⟩ := by
  have hhs : t.has_session = true := by simp [ProgressTracker.has_session, hs]
  simp [sendUpdate, hhs, hdue]

theorem C1_witness :
    sendUpdate (ProgressTracker.mk (some {}) 0)
        (some { percentage := 50, is_paused := true }) 100 30 80 false true =
      ⟨ProgressTracker.mk (some {}) 0, false, false, .unboundLocalError⟩ :=
  C1_not_due_raises _ {} _ 100 30 80 true rfl
    (by simp [ProgressTracker.should_scrobble])

/-- Claim C3, counterexample: with the freshly started session
(`_last_scrobble = 0.0`, the "never" sentinel) and an unpaused snapshot at
90 %, the due-evaluation at `now = 10` returns false — the sentinel does
not bypass the 15-second hard floor, contradicting "returns true for every
value of now and every snapshot percentage". -/
theorem C3_counterexample :
    (ProgressTracker.mk (some {}) 0).should_scrobble
      { percentage := 90 } 10 30 80 = false := by
  simp [ProgressTracker.should_scrobble, MIN_INTERVAL]
  norm_num

/-- Claim C3, amended: the "never" sentinel is the timestamp `0.0`; there
is no floor bypass.  With an active session, `last_scrobble = 0`, and an
unpaused snapshot, the due-evaluation returns true for every percentage
whenever `now` clears both the hard floor and the poll interval (elapsed
equals `now` itself), which is every realistic monotonic timestamp. -/
theorem C3_sentinel_due (t : ProgressTracker) (st : PlaybackState)
    (media : MediaSnapshot) (now poll thr : ℚ) (hs : t.state = some st)
    (hl : t.last_scrobble = 0) (hp : media.is_paused = false)
    (h15 : MIN_INTERVAL ≤ now) (hpoll : poll ≤ now) :
    t.should_scrobble media now poll thr = true := by
  simp only [ProgressTracker.should_scrobble, hs, hl, hp, sub_zero,
    Bool.false_eq_true, if_false]
  rw [if_neg (not_lt.mpr h15), if_pos hpoll]

theorem C3_witness :
    (ProgressTracker.mk (some {}) 0).should_scrobble
      { percentage := 0 } 100 30 80 = true :=
  C3_sentinel_due _ {} _ 100 30 80 rfl rfl rfl
    (by norm_num [MIN_INTERVAL]) (by norm_num)

/-- Claim C5: once `watched_sent` is true for the active session, the
watched-threshold rule can never fire again: the due-evaluation result no longer
depends on the threshold at all, and `record_scrobble` never resets the
flag. -/
theorem C5_threshold_fires_once (t : ProgressTracker) (st : PlaybackState)
    (media : MediaSnapshot) (now poll thr thrB : ℚ)
    (hs : t.state = some st) (hw : st.watched_sent = true) :
    t.should_scrobble media now poll thr
      = t.should_scrobble media now poll thrB ∧
    ∀ st', (t.record_scrobble media now thr).state = some st' →
      st'.watched_sent = true := by
  constructor
  · simp [ProgressTracker.should_scrobble, hs, hw]
  · intro st' h
    simp only [ProgressTracker.record_scrobble, hs, Option.some.injEq] at h
    rw [← h]
    simp [hw]

theorem C5_witness :
    (ProgressTracker.mk (some { watched_sent := true }) 0).should_scrobble
        { percentage := 90 } 20 30 80
      = (ProgressTracker.mk (some { watched_sent := true }) 0).should_scrobble
        { percentage := 90 } 20 30 10 :=
  (C5_threshold_fires_once _ _ _ 20 30 80 10 rfl rfl).1

/-- Claim C6: a paused snapshot makes `should_scrobble` return false, for
every session state, elapsed time, percentage and settings. -/
theorem C6_paused_never_due (t : ProgressTracker) (media : MediaSnapshot)
    (now poll thr : ℚ) (hp : media.is_paused = true) :
    t.should_scrobble media now poll thr = false := by
  obtain ⟨s0, last⟩ := t
  cases s0 <;> simp [ProgressTracker.should_scrobble, hp]

theorem C6_witness :
    (ProgressTracker.mk (some {}) 0).should_scrobble
      { percentage := 50, is_paused := true } 100 30 80 = false :=
  C6_paused_never_due _ _ 100 30 80 rfl

/-- Tracker used by the seek-boundary scenario of claim C7: active session,
`last_percentage = 40.0`, threshold already fired, last scrobble at
`t = 100`; evaluated at `now = 116` so the 15-second floor is satisfied
but the 30-second timed interval is not. -/
def seekTracker : ProgressTracker :=
  ⟨some { last_percentage := 40, watched_sent := true }, 100⟩

/-- Claim C7, counterexample: a snapshot at exactly 45.0 % DOES make the
due-evaluation return true — the source's seek rule is
`progress_delta >= 5.0`, so the 5-point delta at the boundary triggers,
contradicting "a snapshot at percentage 45.0 does not". -/
theorem C7_counterexample :
    seekTracker.should_scrobble { percentage := 45 } 116 30 80 = true := by
  simp [seekTracker, ProgressTracker.should_scrobble, MIN_INTERVAL]
  norm_num

/-- Claim C7, amended: with the floor satisfied, the timed rule not met,
threshold fired, and `last_percentage = 40.0`: a snapshot at 45.0 does
trigger (the boundary `>=` fires), 44.9 does not, and 45.1 does. -/
theorem C7_seek_boundary :
    seekTracker.should_scrobble { percentage := 45 } 116 30 80 = true ∧
    seekTracker.should_scrobble { percentage := 449/10 } 116 30 80 = false ∧
    seekTracker.should_scrobble { percentage := 451/10 } 116 30 80 = true := by
  refine ⟨?_, ?_, ?_⟩ <;>
    simp [seekTracker, ProgressTracker.should_scrobble, MIN_INTERVAL] <;>
    norm_num [abs_of_nonneg]

/-- Claim C8: `record_scrobble` with an active session sets `watched_sent`
when the percentage reaches the threshold (and never clears it), sets
`last_percentage` to the snapshot percentage, and sets `_last_scrobble` to
`now`; with no session it is a complete no-op. -/
theorem C8_record_scrobble (t : ProgressTracker) (media : MediaSnapshot)
    (now thr : ℚ) :
    (∀ st, t.state = some st →
        t.record_scrobble media now thr =
          ⟨some { st with
              watched_sent :=
                if thr ≤ media.percentage then true else st.watched_sent
              last_percentage := media.percentage }, now⟩) ∧
    (∀ st st', t.state = some st →
        (t.record_scrobble media now thr).state = some st' →
        st.watched_sent = true → st'.watched_sent = true) ∧
    (t.state = none → t.record_scrobble media now thr = t) := by
  refine ⟨fun st hs => ?_, fun st st' hs h hw => ?_, fun hn => ?_⟩
  · simp [ProgressTracker.record_scrobble, hs]
  · simp only [ProgressTracker.record_scrobble, hs, Option.some.injEq] at h
    rw [← h]
    simp [hw]
  · simp [ProgressTracker.record_scrobble, hn]

theorem C8_witness :
    (ProgressTracker.mk (some {}) 0).record_scrobble { percentage := 85 } 50 80 =
      ⟨some { watched_sent := if (80:ℚ) ≤ 85 then true else false
              last_percentage := 85 }, 50⟩ :=
  (C8_record_scrobble (ProgressTracker.mk (some {}) 0)
    { percentage := 85 } 50 80).1 {} rfl

/-- Claim C9: the due-evaluation mutates nothing — its state-passing
rendering returns the tracker unchanged — and the tracker advances only
through `record_scrobble`, which `_send_update` reaches only after the
sink reported success: no commit means the tracker is untouched, and a
commit means the sink succeeded and the new tracker is exactly
`record_scrobble`'s result. -/
theorem C9_evaluation_pure (t : ProgressTracker) (media : MediaSnapshot)
    (now poll thr : ℚ) (force ok : Bool) :
    t.should_scrobbleS media now poll thr
      = (t.should_scrobble media now poll thr, t) ∧
    ((sendUpdate t (some media) now poll thr force ok).committed = false →
      (sendUpdate t (some media) now poll thr force ok).tracker = t) ∧
    ((sendUpdate t (some media) now poll thr force ok).committed = true →
      ok = true ∧
      (sendUpdate t (some media) now poll thr force ok).tracker
        = t.record_scrobble media now thr) :=
  ⟨should_scrobbleS_eq t media now poll thr,
   fun h => sendUpdate_frame h,
   fun h => ⟨(sendUpdate_committed h).1, (sendUpdate_committed h).2.2.2⟩⟩

theorem C9_witness :
    (sendUpdate (ProgressTracker.mk (some {}) 0) (some { percentage := 50 })
        100 30 80 false false).tracker = ProgressTracker.mk (some {}) 0 :=
  (C9_evaluation_pure (ProgressTracker.mk (some {}) 0) { percentage := 50 }
      100 30 80 false false).2.1
    (by simp [sendUpdate, ProgressTracker.has_session,
          ProgressTracker.should_scrobble, MIN_INTERVAL]; norm_num)

/-- Claim C10: a forced (or any) `_send_update` in which
`MediaInfo.get_current()` returns `None` returns before touching the lock:
no sink invocation, no commit, tracker unchanged, normal termination —
even when a session exists.  In `onPlayBackEnded` this silently skips the
final report, and only the subsequent `end_session` destroys the
session. -/
theorem C10_no_media_skips_final_report (t : ProgressTracker)
    (now poll thr : ℚ) (force ok : Bool) :
    sendUpdate t none now poll thr force ok = ⟨t, false, false, .normal⟩ ∧
    (onPlayBackEnded t none now poll thr ok).1 = ⟨t, false, false, .normal⟩ ∧
    (onPlayBackEnded t none now poll thr ok).2.state = none :=
  ⟨rfl, rfl, rfl⟩

lemma commitTimes_chain (poll thr : ℚ) (as : List Attempt) :
    ∀ t : ProgressTracker, (∀ a ∈ as, a.force = false) →
      List.Chain' (fun x y => x + MIN_INTERVAL ≤ y)
        (t.last_scrobble :: commitTimes poll thr t as) := by
  induction as with
  | nil => intro t _; simp [commitTimes]
  | cons a as ih =>
    intro t hf
    have hfa : a.force = false := hf a (List.mem_cons_self a as)
    have hfs : ∀ b ∈ as, b.force = false :=
      fun b hb => hf b (List.mem_cons_of_mem a hb)
    by_cases hc :
        (sendUpdate t (some a.media) a.now poll thr a.force a.sinkOk).committed = true
    · obtain ⟨-, hsess, hdue, htr⟩ := sendUpdate_committed hc
      rw [hfa, Bool.false_or] at hdue
      have hfloor := should_scrobble_floor hdue
      obtain ⟨st, hst⟩ := has_session_some hsess
      have hlast :
          (sendUpdate t (some a.media) a.now poll thr a.force a.sinkOk).tracker.last_scrobble
            = a.now := by
        rw [htr]; exact record_scrobble_last hst
      have hchain :=
        ih (sendUpdate t (some a.media) a.now poll thr a.force a.sinkOk).tracker hfs
      rw [hlast] at hchain
      simp only [commitTimes, hc, if_true]
      exact List.chain'_cons.mpr ⟨hfloor, hchain⟩
    · have hc' :
          (sendUpdate t (some a.media) a.now poll thr a.force a.sinkOk).committed
            = false := by simpa using hc
      have hfr := sendUpdate_frame hc'
      simp only [commitTimes, hc', Bool.false_eq_true, if_false]
      rw [hfr]
      exact ih t hfs

/-- Claim C4, counterexample: a sequential trace on one session in which a
normal due commit at `t = 100` is followed by a forced end-of-media commit
at `t = 101` produces two successful commits only 1 second apart — the
forced path bypasses `should_scrobble` and with it the 15-second floor. -/
theorem C4_counterexample :
    commitTimes 30 80 (ProgressTracker.mk (some {}) 0)
        [⟨{ percentage := 50 }, 100, false, true⟩,
         ⟨{ percentage := 55 }, 101, true, true⟩]
      = [100, 101] ∧ (101 : ℚ) - 100 < MIN_INTERVAL := by
  constructor
  · simp [commitTimes, sendUpdate, ProgressTracker.has_session,
      Option.isSome, ProgressTracker.should_scrobble,
      ProgressTracker.record_scrobble, MIN_INTERVAL]
    norm_num
  · norm_num [MIN_INTERVAL]

/-- Claim C4, amended: in every sequential trace of `_send_update` attempts
on one session in which no attempt is forced, no two successful commits
are less than `MIN_INTERVAL` = 15 seconds apart; forced end-of-media
attempts are exempt and can commit arbitrarily soon after a previous
commit. -/
theorem C4_unforced_commits_respect_floor (t : ProgressTracker)
    (poll thr : ℚ) (as : List Attempt)
    (hf : ∀ a ∈ as, a.force = false) :
    List.Pairwise (fun x y => x + MIN_INTERVAL ≤ y)
      (commitTimes poll thr t as) := by
  haveI : IsTrans ℚ (fun x y => x + MIN_INTERVAL ≤ y) := by
    constructor
    intro x y z hxy hyz
    have h0 : (0:ℚ) ≤ MIN_INTERVAL := by norm_num [MIN_INTERVAL]
    linarith
  have hchain := (commitTimes_chain poll thr as t hf).tail
  simpa using List.chain'_iff_pairwise.mp hchain

theorem C4_witness :
    List.Pairwise (fun x y => x + MIN_INTERVAL ≤ y)
      (commitTimes 30 80 (ProgressTracker.mk (some {}) 0)
        [⟨{ percentage := 50 }, 100, false, true⟩,
         ⟨{ percentage := 55 }, 101, false, true⟩]) :=
  C4_unforced_commits_respect_floor _ 30 80 _ (by
    intro a ha
    rcases List.mem_cons.mp ha with h | h
    · rw [h]
    · rw [List.mem_singleton.mp h])

/-- The attempt both overlapping `_send_update` calls execute: the same
already-due session snapshot (fresh session, `now = 100`, so the timed
rule fires), neither forced, sink succeeding for both. -/
def overlapAttempt : Attempt := ⟨{ percentage := 50 }, 100, false, true⟩

/-- Initial system state for the two overlapping calls: an active fresh
session and both threads about to enter the locked due-check. -/
def overlapInit : SysState :=
  ⟨ProgressTracker.mk (some {}) 0, ⟨.checkDue, false⟩, ⟨.checkDue, false⟩, 0⟩

/-- Claim C2 (code bug): two concurrent `_send_update` calls whose locked
due-evaluations both run before either commit.  The source holds the lock
separately for the due-check and for `record_scrobble`, and
`should_scrobble` mutates nothing, so under the schedule
check₀, check₁, sink₀, record₀, sink₁, record₁ both calls observe "due"
and BOTH commit a successful sink invocation — the spec's "at most one
commit" guarantee does not hold. -/
theorem C2_overlapping_attempts_double_commit :
    (sysRun 30 80 overlapAttempt overlapAttempt overlapInit
        [false, true, false, false, true, true]).commits = 2 ∧
    (sysRun 30 80 overlapAttempt overlapAttempt overlapInit
        [false, true, false, false, true, true]).thread0.phase = .done ∧
    (sysRun 30 80 overlapAttempt overlapAttempt overlapInit
        [false, true, false, false, true, true]).thread1.phase = .done := by
  refine ⟨?_, ?_, ?_⟩ <;>
    norm_num [sysRun, sysStep, threadStep, overlapAttempt, overlapInit,
      ProgressTracker.has_session, Option.isSome,
      ProgressTracker.should_scrobble, ProgressTracker.record_scrobble,
      MIN_INTERVAL]
